import Mathlib

/-!
Shallow embedding of the mc-multiChat relay client
(`src/multiChat/multiChat.py` and `src/multiChat/__init__.py`).

The Python class `MultiChatWS` is a websocket relay client driven by Qt
signal callbacks.  We embed it as pure functions: the mutable attributes
(`ws_valid`, `retry_interval`, the `retry_timer`) become a `ClientState`
record, the immutable configuration attributes become a `RelayConfig`
record, and every side effect performed by a handler (logging, chat
`tell`, websocket writes/opens, timer operations) is recorded in an
explicit `Effect` list.  A Python exception escaping a handler is
modelled as an `Option PyExn` (resp. `Except PyExn` for `__init__`),
paired with the state and the effects already produced at the point of
the raise.

Inbound websocket text frames are modelled by the outcome of Python's
`json.loads` on them: either `Frame.parsed j` with `j` the decoded JSON
value, or `Frame.malformed` when `json.loads` raises `JSONDecodeError`.
Objects decoded by `json.loads` have unique keys, so association-list
lookup is a faithful model of dict indexing on them.
-/

namespace MultiChat

def RETRY_INTERVAL_MIN : Nat := 5000

def RETRY_INTERVAL_MAX : Nat := 3600 * 1000

def SUPPORTED_LANGUAGES : List String := ["en", "zh-cn"]

/-- JSON values as produced by Python's `json.loads`. -/
inductive Json where
  | null
  | bool (b : Bool)
  | num (n : Int)
  | str (s : String)
  | arr (elems : List Json)
  | obj (fields : List (String × Json))
deriving Repr

/-- Python exceptions that the embedded code can raise. -/
inductive PyExn where
  | jsonDecodeError
  | keyError (k : String)
  | typeError
  | attributeError
  | nameError
deriving Repr, DecidableEq

/-- First-match association-list lookup (keys of `json.loads` objects are unique). -/
def assocFind : List (String × Json) → String → Option Json
  | [], _ => none
  | (k, v) :: rest, key => if k = key then some v else assocFind rest key

/-- Python subscription `data[k]` on a decoded JSON value: `KeyError` when the
key is absent from an object, `TypeError` when the value is not an object
(indexing a list/number/string with a string key). -/
def Json.getItem : Json → String → Except PyExn Json
  | .obj fields, k =>
      match assocFind fields k with
      | some v => .ok v
      | none => .error (.keyError k)
  | _, _ => .error .typeError

/-- Python `v == s` for a string literal `s`: true exactly when `v` is that string. -/
def Json.isStr : Json → String → Bool
  | .str t, s => t == s
  | _, _ => false

/-- Python truthiness of a decoded JSON value. -/
def Json.truthy : Json → Bool
  | .null => false
  | .bool b => b
  | .num n => n != 0
  | .str s => s != ""
  | .arr l => !l.isEmpty
  | .obj l => !l.isEmpty

mutual

/-- Python `str()` / `format()` rendering of a decoded JSON value, used by
`'[{}]{}'.format(source, content)` and the unsupported-language warning.
Scalars are rendered exactly as Python does; for containers (which never
occur in those positions in well-formed hub traffic) the repr punctuation
of nested strings is abbreviated. -/
def pyStr : Json → String
  | .null => "None"
  | .bool true => "True"
  | .bool false => "False"
  | .num n => toString n
  | .str s => s
  | .arr l => "[" ++ pyStrList l ++ "]"
  | .obj l => "\x7b" ++ pyStrFields l ++ "\x7d"

def pyStrList : List Json → String
  | [] => ""
  | [x] => pyStr x
  | x :: y :: xs => pyStr x ++ ", " ++ pyStrList (y :: xs)

def pyStrFields : List (String × Json) → String
  | [] => ""
  | [(k, v)] => k ++ ": " ++ pyStr v
  | (k, v) :: y :: xs => k ++ ": " ++ pyStr v ++ ", " ++ pyStrFields (y :: xs)

end

/-- Python `text.startswith(p)`. -/
def startswith (text p : String) : Bool :=
  List.isPrefixOf p.toList text.toList

/-- Python `s.rstrip(c)`: drop every trailing occurrence of `c`. -/
def pyRstrip (s : String) (c : Char) : String :=
  String.mk ((s.toList.reverse.dropWhile (fun x => x == c)).reverse)

/-- An inbound websocket text frame, modelled by the outcome of `json.loads`:
the parsed JSON value, or `malformed` when `json.loads` raises. -/
inductive Frame where
  | parsed (j : Json)
  | malformed
deriving Repr

/-- The immutable configuration attributes set up by `MultiChatWS.__init__`.
The source stores the raw decoded config values and applies Python
truthiness / iteration at the use sites; this record holds the values with
the types every use site assumes (booleans for `listen`/`post`, a string
list for `ignore-prefix`), which is faithful for well-typed configurations. -/
structure RelayConfig where
  url : String
  key : Json
  server_name : String
  do_listen : Bool
  do_post : Bool
  ignore_prefix : List String
  lang : String
deriving Repr

/-- The mutable attributes of `MultiChatWS`: the registration flag
`ws_valid`, the backoff interval `retry_interval`, and the `retry_timer`
(whether it is running and its programmed interval). -/
structure ClientState where
  ws_valid : Bool
  retry_interval : Nat
  timer_active : Bool
  timer_interval : Nat
deriving Repr, DecidableEq

/-- Side effects a handler can perform, in program order.
`logDebugSend f` stands for `logger.debug('WebSocket sending: ' + json.dumps(f))`,
`logDebugRecv m` for `logger.debug('WebSocket received: ' + m)`,
`wsSend f` for `ws.sendTextMessage(json.dumps(f))`,
`tell t m c` for `utils.tell(t, m)` (with `color=c` when given). -/
inductive Effect where
  | logDebug (msg : String)
  | logInfo (msg : String)
  | logWarning (msg : String)
  | logError (msg : String)
  | logDebugSend (frame : Json)
  | logDebugRecv (f : Frame)
  | tell (target : String) (msg : String) (color : Option String)
  | wsSend (frame : Json)
  | wsOpen (url : String)
  | timerSetInterval (ms : Nat)
  | timerStart
  | timerStop
deriving Repr

/-- `MultiChatWS.post`: broadcast a message to all players in grey. -/
def post (message : String) : List Effect :=
  [Effect.tell "@a" message (some "#777777")]

/-- The `client-message` frame built by `send_msg`. -/
def clientMessageFrame (message : String) : Json :=
  Json.obj [("action", Json.str "client-message"), ("content", Json.str message)]

/-- `MultiChatWS.send_msg`: write a `client-message` frame when the socket is
registered (`ws_valid`), otherwise log a warning and drop the message.
No attribute is mutated. -/
def send_msg (st : ClientState) (message : String) : ClientState × List Effect :=
  if st.ws_valid then
    (st, [Effect.logDebugSend (clientMessageFrame message),
          Effect.wsSend (clientMessageFrame message)])
  else
    (st, [Effect.logWarning "Tried to write websocket when not available"])

/-- The `register` frame built by `on_connected`:
`'MC-' + server_name if server_name else 'MC'` plus the secret key. -/
def registerFrame (cfg : RelayConfig) : Json :=
  Json.obj [("action", Json.str "register"),
            ("client-name",
              Json.str (if cfg.server_name = "" then "MC" else "MC-" ++ cfg.server_name)),
            ("secret-key", cfg.key)]

/-- `MultiChatWS.on_connected`: on transport open, log and send the
`register` frame.  State is untouched (registration happens on ack). -/
def on_connected (cfg : RelayConfig) (st : ClientState) : ClientState × List Effect :=
  (st, [Effect.logInfo ("Successfully connected to: " ++ cfg.url),
        Effect.logDebugSend (registerFrame cfg),
        Effect.wsSend (registerFrame cfg)])

/-- `MultiChatWS.on_connection_broken`: notify with the current retry
interval, clear `ws_valid`, program and start the retry timer with the
current interval, and only afterwards double the interval (capped at the
maximum). -/
def on_connection_broken (st : ClientState) : ClientState × List Effect :=
  ({ st with ws_valid := false,
             timer_interval := st.retry_interval,
             timer_active := true,
             retry_interval := min RETRY_INTERVAL_MAX (st.retry_interval * 2) },
   [Effect.logInfo ("Connection broken, retry after " ++ toString st.retry_interval ++ "ms"),
    Effect.tell "@a" ("multichat connection broken, retry after " ++ toString st.retry_interval ++ "ms") none,
    Effect.timerSetInterval st.retry_interval,
    Effect.timerStart])

/-- `MultiChatWS.on_retry_timer`: stop the timer, announce the attempt and
open the websocket to the configured url. -/
def on_retry_timer (cfg : RelayConfig) (st : ClientState) : ClientState × List Effect :=
  ({ st with timer_active := false },
   [Effect.timerStop,
    Effect.logInfo "Connecting to multichat server",
    Effect.tell "@a" "multichat: connecting to server" none,
    Effect.wsOpen cfg.url])

/-- `MultiChatWS.on_recv`: handle an inbound text frame.  Mirrors the Python
statement order: debug-log the raw message, `json.loads` it (raising on
malformed input), index `data['action']` (raising `KeyError`/`TypeError`),
then run the `register-ack` branch and the `forwarding-message` branch.
The third component records an exception escaping the handler; state and
effects are those produced up to the point of the raise. -/
def on_recv (cfg : RelayConfig) (st : ClientState) (message : Frame) :
    ClientState × List Effect × Option PyExn :=
  let logd := Effect.logDebugRecv message
  match message with
  | .malformed => (st, [logd], some PyExn.jsonDecodeError)
  | .parsed data =>
    match data.getItem "action" with
    | .error e => (st, [logd], some e)
    | .ok act =>
      let ackStep : ClientState × List Effect :=
        if act.isStr "register-ack" then
          ({ st with ws_valid := true, retry_interval := RETRY_INTERVAL_MIN },
           [Effect.logInfo "Successfully registered.",
            Effect.tell "@a" "multichat: server connected" none])
        else (st, [])
      if act.isStr "forwarding-message" && cfg.do_post then
        match data.getItem "source-client-name" with
        | .error e => (ackStep.1, logd :: ackStep.2, some e)
        | .ok source =>
          match data.getItem "content" with
          | .error e => (ackStep.1, logd :: ackStep.2, some e)
          | .ok content =>
            (ackStep.1,
             logd :: ackStep.2 ++ post ("[" ++ pyStr source ++ "]" ++ pyStr content),
             none)
      else (ackStep.1, logd :: ackStep.2, none)

/-- A local actor as delivered by `sig_input`: a name and the
`is_console()` flag. -/
structure Player where
  name : String
  is_console : Bool
deriving Repr, DecidableEq

/-- `MultiChatWS.on_player_input`: the exact command `!multichat connect`
is handled locally (notice when registered, otherwise an immediate
reconnect via `on_retry_timer`) and returns; otherwise, when `listen` is
set, console input and input starting with an ignored message prefix are
dropped, and anything else is sent as `<name> text`. -/
def on_player_input (cfg : RelayConfig) (st : ClientState) (player : Player) (text : String) :
    ClientState × List Effect :=
  let logd := Effect.logDebug "MultiChat.on_player_input called"
  if text = "!multichat connect" then
    if st.ws_valid then
      (st, [logd, Effect.tell player.name "multichat is already connected to server" none])
    else
      let r := on_retry_timer cfg st
      (r.1, logd :: r.2)
  else if cfg.do_listen then
    if player.is_console then (st, [logd])
    else if cfg.ignore_prefix.any (fun s => startswith text s) then (st, [logd])
    else
      let r := send_msg st ("<" ++ player.name ++ "> " ++ text)
      (r.1, logd :: r.2)
  else (st, [logd])

/-- `MultiChatWS.on_player_login`.  When `lang` is outside the supported set
the Python `msg` variable is never bound and `send_msg(msg)` raises
`NameError`; `__init__` guarantees a supported `lang`. -/
def on_player_login (cfg : RelayConfig) (st : ClientState) (player : Player) :
    ClientState × List Effect × Option PyExn :=
  let logd := Effect.logDebug "MultiChat.on_player_login called"
  if cfg.lang = "en" then
    (st, logd :: (send_msg st (player.name ++ " joined the game")).2, none)
  else if cfg.lang = "zh-cn" then
    (st, logd :: (send_msg st (player.name ++ "加入了游戏")).2, none)
  else (st, [logd], some PyExn.nameError)

/-- `MultiChatWS.on_player_logout`, symmetric to login. -/
def on_player_logout (cfg : RelayConfig) (st : ClientState) (player : Player) :
    ClientState × List Effect × Option PyExn :=
  let logd := Effect.logDebug "MultiChat.on_player_logout called"
  if cfg.lang = "en" then
    (st, logd :: (send_msg st (player.name ++ " left the game")).2, none)
  else if cfg.lang = "zh-cn" then
    (st, logd :: (send_msg st (player.name ++ "退出了游戏")).2, none)
  else (st, [logd], some PyExn.nameError)

/-- `MultiChatWS.on_advancement`: the advancement object's own
language-aware formatter (external collaborator) produces the text. -/
def on_advancement (cfg : RelayConfig) (st : ClientState) (fmt : String → String) :
    ClientState × List Effect :=
  let r := send_msg st (fmt cfg.lang)
  (r.1, Effect.logDebug "MultiChat.on_advancement called" :: r.2)

/-- `MultiChatWS.on_death`, identical shape to `on_advancement`. -/
def on_death (cfg : RelayConfig) (st : ClientState) (fmt : String → String) :
    ClientState × List Effect :=
  let r := send_msg st (fmt cfg.lang)
  (r.1, Effect.logDebug "MultiChat.on_death called" :: r.2)

/-- `ignore-prefix` as a list of strings (its only well-typed shape). -/
def Json.asStringList : Json → List String
  | .arr l => l.filterMap fun j => match j with | .str s => some s | _ => none
  | _ => []

/-- The client attributes right after a completed `__init__`:
`ws_valid = False`, `retry_interval = RETRY_INTERVAL_MIN`, and the retry
timer stopped (the trailing `on_retry_timer()` call stops it before
opening the websocket). -/
def initState : ClientState :=
  { ws_valid := false, retry_interval := RETRY_INTERVAL_MIN,
    timer_active := false, timer_interval := 0 }

/-- Result of `MultiChatWS.__init__`: either the component returned early
disabled (missing `mcBasicLib`), or it set itself up and opened the
connection. -/
inductive InitOutcome where
  | disabled (effects : List Effect)
  | started (cfg : RelayConfig) (st : ClientState) (effects : List Effect)

/-- `MultiChatWS.__init__` (with `load` from `__init__.py` supplying the
decoded `config.json`).  `config` is the decoded configuration object and
`utilsAvailable` models whether `core.get_plugin('mcBasicLib')` returns a
plugin.  Reads the required fields in source order — a missing field
raises `KeyError` out of the constructor, and a non-string url raises
`AttributeError` at `.rstrip` — then handles the optional fields and the
`lang` fallback, then checks the dependency: when it is missing the
component logs two errors and returns disabled.  Otherwise it wires the
signals, initialises the mutable state, and calls `on_retry_timer()` to
open the connection. -/
def multiChatWS_init (config : Json) (utilsAvailable : Bool) :
    Except PyExn InitOutcome :=
  match config.getItem "multichat-url" with
  | .error e => .error e
  | .ok urlv =>
    match urlv with
    | .str urls =>
      let url := pyRstrip urls '/' ++ "/"
      match config.getItem "multichat-key" with
      | .error e => .error e
      | .ok keyv =>
        let server_name : String :=
          match config.getItem "server-name" with
          | .ok (.str s) => s
          | _ => ""
        match config.getItem "listen" with
        | .error e => .error e
        | .ok listenv =>
          match config.getItem "post" with
          | .error e => .error e
          | .ok postv =>
            match config.getItem "ignore-prefix" with
            | .error e => .error e
            | .ok ignv =>
              let langPair : String × List Effect :=
                match config.getItem "lang" with
                | .ok v =>
                  if SUPPORTED_LANGUAGES.any (fun l => v.isStr l) then (pyStr v, [])
                  else ("en", [Effect.logWarning ("Not supported language: " ++ pyStr v)])
                | .error _ => ("en", [])
              if utilsAvailable then
                let cfg : RelayConfig :=
                  { url := url, key := keyv, server_name := server_name,
                    do_listen := listenv.truthy, do_post := postv.truthy,
                    ignore_prefix := ignv.asStringList, lang := langPair.1 }
                let r := on_retry_timer cfg initState
                .ok (InitOutcome.started cfg r.1 (langPair.2 ++ r.2))
              else
                .ok (InitOutcome.disabled (langPair.2 ++
                  [Effect.logError "Failed to load plugin \"mcBasicLib\", multiChat will be disabled.",
                   Effect.logError "Please make sure that \"mcBasicLib\" has been added to plugins."]))
    | _ => .error .attributeError

/-- The events that drive `MultiChatWS`: the Qt signal callbacks. -/
inductive Event where
  | connected
  | recv (f : Frame)
  | connectionBroken
  | retryTimer
  | playerInput (p : Player) (t : String)
  | playerLogin (p : Player)
  | playerLogout (p : Player)
  | advancement (fmt : String → String)
  | death (fmt : String → String)

/-- Dispatch one callback, returning the new state and its effects
(exceptions escaping `on_recv`/login/logout leave state and effects as at
the raise point, exactly as recorded by those handlers). -/
def step (cfg : RelayConfig) (st : ClientState) : Event → ClientState × List Effect
  | .connected => on_connected cfg st
  | .recv f => ((on_recv cfg st f).1, (on_recv cfg st f).2.1)
  | .connectionBroken => on_connection_broken st
  | .retryTimer => on_retry_timer cfg st
  | .playerInput p t => on_player_input cfg st p t
  | .playerLogin p => ((on_player_login cfg st p).1, (on_player_login cfg st p).2.1)
  | .playerLogout p => ((on_player_logout cfg st p).1, (on_player_logout cfg st p).2.1)
  | .advancement fmt => on_advancement cfg st fmt
  | .death fmt => on_death cfg st fmt

/-- Run a sequence of callbacks, accumulating effects in order. -/
def run (cfg : RelayConfig) (st : ClientState) : List Event → ClientState × List Effect
  | [] => (st, [])
  | e :: es =>
    let r1 := step cfg st e
    let r2 := run cfg r1.1 es
    (r2.1, r1.2 ++ r2.2)

/-- The states of the client reachable from the post-`__init__` state by
callback dispatch. -/
inductive Reachable (cfg : RelayConfig) : ClientState → Prop where
  | init : Reachable cfg initState
  | next {st : ClientState} (e : Event) : Reachable cfg st → Reachable cfg (step cfg st e).1

/-- Does this frame take the `register-ack` branch of `on_recv`? -/
def isAckFrame : Frame → Bool
  | .malformed => false
  | .parsed j =>
    match j.getItem "action" with
    | .ok act => act.isStr "register-ack"
    | .error _ => false

/-- Does this event deliver a `register-ack` frame? -/
def Event.isAck : Event → Bool
  | .recv f => isAckFrame f
  | _ => false

/-- A callback sequence containing no `register-ack` delivery. -/
def NoAck (tr : List Event) : Prop := ∀ e ∈ tr, e.isAck = false

/-- All websocket writes in an effect list, in order. -/
def sentFrames (effs : List Effect) : List Json :=
  effs.filterMap fun e => match e with | .wsSend f => some f | _ => none

/-- All `utils.tell` calls in an effect list, as (target, message) pairs. -/
def tellsOf (effs : List Effect) : List (String × String) :=
  effs.filterMap fun e => match e with | .tell t m _ => some (t, m) | _ => none

/-- All grey `@a` broadcasts (the `post` method) in an effect list. -/
def broadcasts (effs : List Effect) : List String :=
  effs.filterMap fun e =>
    match e with | .tell "@a" m (some "#777777") => some m | _ => none

/-- All retry-timer interval programmings in an effect list. -/
def schedOf (effs : List Effect) : List Nat :=
  effs.filterMap fun e => match e with | .timerSetInterval n => some n | _ => none

/-- All warnings logged in an effect list. -/
def warningsOf (effs : List Effect) : List String :=
  effs.filterMap fun e => match e with | .logWarning m => some m | _ => none

/-- All websocket opens in an effect list. -/
def wsOpens (effs : List Effect) : List String :=
  effs.filterMap fun e => match e with | .wsOpen u => some u | _ => none

/-- A sample configuration: Scenario A/B of the spec
(`listen: true`, `post: true`, `ignore-prefix: ["!"]`). -/
def sampleCfg : RelayConfig :=
  { url := "ws://hub/", key := Json.str "k", server_name := "Srv",
    do_listen := true, do_post := true, ignore_prefix := ["!"], lang := "en" }

/-- A state in which the client is registered with the hub. -/
def regState : ClientState :=
  { ws_valid := true, retry_interval := RETRY_INTERVAL_MIN,
    timer_active := false, timer_interval := 0 }

/-- A `register-ack` frame from the hub. -/
def ackFrame : Frame := Frame.parsed (Json.obj [("action", Json.str "register-ack")])

/-- The Scenario B inbound frame. -/
def fwdFrame : Json :=
  Json.obj [("action", Json.str "forwarding-message"),
            ("source-client-name", Json.str "Hub1"),
            ("content", Json.str "hi")]

/-- The non-console actor of Scenario A. -/
def bob : Player := { name := "Bob", is_console := false }

/-- The server console actor. -/
def consolePlayer : Player := { name := "Server", is_console := true }

/-- A configuration object with every required field and no optional one. -/
def goodConfig : Json :=
  Json.obj [("multichat-url", Json.str "ws://hub//"),
            ("multichat-key", Json.str "k"),
            ("listen", Json.bool true),
            ("post", Json.bool true),
            ("ignore-prefix", Json.arr [Json.str "!"])]

/-- Three consecutive connection losses (Scenario C). -/
def tripleClose : List Event :=
  [Event.connectionBroken, Event.connectionBroken, Event.connectionBroken]

/-- The configuration fields `__init__` reads unconditionally, in source
order (`multiChat.py:25-30`); `server-name` and `lang` are guarded by an
`in` test and are optional. -/
def requiredConfigKeys : List String :=
  ["multichat-url", "multichat-key", "listen", "post", "ignore-prefix"]

/-- A configuration missing only the required `ignore-prefix` field. -/
def configMissingIgnore : Json :=
  Json.obj [("multichat-url", Json.str "ws://hub"),
            ("multichat-key", Json.str "k"),
            ("listen", Json.bool true),
            ("post", Json.bool true)]

/-- C2: a `send` with a text payload writes exactly one `client-message`
frame carrying that payload when the state is registered; otherwise no
transport write occurs, a warning is logged and the message is lost, with
no state change in either case. -/
theorem C2_send_gating (st : ClientState) (m : String) :
    (send_msg st m).1 = st ∧
    sentFrames (send_msg st m).2 = (if st.ws_valid then [clientMessageFrame m] else []) ∧
    warningsOf (send_msg st m).2 =
      (if st.ws_valid then [] else ["Tried to write websocket when not available"]) := by
  cases h : st.ws_valid <;> simp [send_msg, sentFrames, warningsOf, h]

/-- C3: every `onClose` callback emits a user-visible notice carrying the
current retry interval, programs and starts the retry timer with that same
interval, and only then doubles the interval (capped at the maximum); three
consecutive `onClose` events starting from the minimum schedule delays
5000, 10000, 20000. -/
theorem C3_onclose_backoff (st : ClientState) :
    tellsOf (on_connection_broken st).2 =
      [("@a", "multichat connection broken, retry after " ++
        toString st.retry_interval ++ "ms")] ∧
    schedOf (on_connection_broken st).2 = [st.retry_interval] ∧
    (on_connection_broken st).1.retry_interval =
      min RETRY_INTERVAL_MAX (st.retry_interval * 2) ∧
    schedOf (run sampleCfg initState tripleClose).2 = [5000, 10000, 20000] := by
  refine ⟨?_, ?_, rfl, ?_⟩
  · simp [on_connection_broken, tellsOf]
  · simp [on_connection_broken, schedOf]
  · rfl

/-- C8: the exact chat input `!multichat connect` is handled locally and
never forwarded: when registered the actor is told the client is already
connected and nothing else happens; otherwise an immediate reconnect
attempt is made (timer stopped, notice emitted, websocket opened). -/
theorem C8_connect_command (cfg : RelayConfig) (st : ClientState) (p : Player) :
    on_player_input cfg st p "!multichat connect" =
      (if st.ws_valid then
        (st, [Effect.logDebug "MultiChat.on_player_input called",
              Effect.tell p.name "multichat is already connected to server" none])
      else
        ({ st with timer_active := false },
         [Effect.logDebug "MultiChat.on_player_input called",
          Effect.timerStop,
          Effect.logInfo "Connecting to multichat server",
          Effect.tell "@a" "multichat: connecting to server" none,
          Effect.wsOpen cfg.url])) ∧
    sentFrames (on_player_input cfg st p "!multichat connect").2 = [] := by
  cases h : st.ws_valid <;>
    simp [on_player_input, on_retry_timer, sentFrames, h]

/-- C10: the command `!multichat connect` typed by the server console is
still handled as a reconnect command (the command check precedes the
console filter); console input is excluded only from forwarding. -/
theorem C10_console_command (cfg : RelayConfig) (st : ClientState) (p : Player)
    (_hc : p.is_console = true) :
    sentFrames (on_player_input cfg st p "!multichat connect").2 = [] ∧
    tellsOf (on_player_input cfg st p "!multichat connect").2 =
      (if st.ws_valid then [(p.name, "multichat is already connected to server")]
       else [("@a", "multichat: connecting to server")]) ∧
    wsOpens (on_player_input cfg st p "!multichat connect").2 =
      (if st.ws_valid then [] else [cfg.url]) := by
  cases h : st.ws_valid <;>
    simp [on_player_input, on_retry_timer, sentFrames, tellsOf, wsOpens, h]

/-- C10 witness: the console typing `!multichat connect` while registered
gets the already-connected notice and nothing is forwarded or opened. -/
theorem C10_console_command_witness :
    sentFrames (on_player_input sampleCfg regState consolePlayer "!multichat connect").2 = [] ∧
    tellsOf (on_player_input sampleCfg regState consolePlayer "!multichat connect").2 =
      (if regState.ws_valid then [(consolePlayer.name, "multichat is already connected to server")]
       else [("@a", "multichat: connecting to server")]) ∧
    wsOpens (on_player_input sampleCfg regState consolePlayer "!multichat connect").2 =
      (if regState.ws_valid then [] else [sampleCfg.url]) :=
  C10_console_command sampleCfg regState consolePlayer rfl

/-- C6: a non-command chat input, with the client registered, is forwarded
to the hub exactly when `listen` is set, the actor is not the console and
the text starts with no ignored message prefix; the forwarded content is
`<name> text`. -/
theorem C6_chat_forwarding (cfg : RelayConfig) (st : ClientState) (p : Player) (t : String)
    (hcmd : t ≠ "!multichat connect") (hreg : st.ws_valid = true) :
    sentFrames (on_player_input cfg st p t).2 =
      (if cfg.do_listen && !p.is_console &&
          !( cfg.ignore_prefix.any (fun s => startswith t s))
       then [clientMessageFrame ("<" ++ p.name ++ "> " ++ t)] else []) := by
  cases hdl : cfg.do_listen <;> cases hic : p.is_console <;>
    cases hpf : cfg.ignore_prefix.any (fun s => startswith t s) <;>
      simp [on_player_input, send_msg, sentFrames, hcmd, hreg, hdl, hic, hpf]

/-- C6 witness, Scenario A: `hello` from Bob is forwarded as
`<Bob> hello`. -/
theorem C6_chat_forwarding_witness :
    sentFrames (on_player_input sampleCfg regState bob "hello").2 =
      [clientMessageFrame "<Bob> hello"] := by
  rw [C6_chat_forwarding sampleCfg regState bob "hello" (by decide) rfl]
  rfl

/-- Python equality against a string literal succeeds only on that string. -/
theorem Json.isStr_true {j : Json} {s : String} (h : j.isStr s = true) :
    j = Json.str s := by
  cases j <;> simp_all [Json.isStr]

/-- C1 counterexample: decoding is not total — a text frame that is not
valid JSON makes the message-received handler raise `JSONDecodeError`
(`json.loads` at the top of `on_recv` is not guarded), so an exception
does escape into the caller. -/
theorem C1_decode_raises :
    (on_recv sampleCfg initState Frame.malformed).2.2 ≠ none := by
  simp [on_recv]

/-- C1 amended: whenever handling an inbound frame raises (malformed JSON,
non-object frame, missing `action`, or missing forwarding fields), the
exception escapes into the caller, but the connection state is unchanged
and nothing is written to the transport. -/
theorem C1_decode_error_state (cfg : RelayConfig) (st : ClientState) (f : Frame)
    (h : (on_recv cfg st f).2.2 ≠ none) :
    (on_recv cfg st f).1 = st ∧ sentFrames (on_recv cfg st f).2.1 = [] := by
  cases f with
  | malformed => exact ⟨rfl, rfl⟩
  | parsed j =>
    cases hact : j.getItem "action" with
    | error e => simp [on_recv, hact, sentFrames]
    | ok act =>
      cases hfw : act.isStr "forwarding-message" && cfg.do_post with
      | false => exact absurd (by simp [on_recv, hact, hfw]) h
      | true =>
        have hafw : act = Json.str "forwarding-message" :=
          Json.isStr_true ((Bool.and_eq_true _ _).mp hfw).1
        have hack : act.isStr "register-ack" = false := by subst hafw; rfl
        cases hs : j.getItem "source-client-name" with
        | error e => simp [on_recv, hact, hfw, hack, hs, sentFrames]
        | ok source =>
          cases hc2 : j.getItem "content" with
          | error e => simp [on_recv, hact, hfw, hack, hs, hc2, sentFrames]
          | ok content =>
            exact absurd (by simp [on_recv, hact, hfw, hs, hc2]) h

/-- C1 witness: on the malformed frame the handler raises, and the state is
unchanged with no transport write. -/
theorem C1_decode_error_state_witness :
    (on_recv sampleCfg initState Frame.malformed).1 = initState ∧
    sentFrames (on_recv sampleCfg initState Frame.malformed).2.1 = [] :=
  C1_decode_error_state sampleCfg initState Frame.malformed (by simp [on_recv])

/-- C5: a frame decoding to `register-ack` makes the client registered,
resets the retry interval to the minimum, and emits exactly one
`multichat: server connected` notice with no exception; processing a
duplicate ack while already registered leaves the state unchanged; and the
next `onClose` after any ack schedules exactly the minimum interval. -/
theorem C5_register_ack (cfg : RelayConfig) (st : ClientState) (f : Frame)
    (h : isAckFrame f = true) :
    (on_recv cfg st f).1 =
      { st with ws_valid := true, retry_interval := RETRY_INTERVAL_MIN } ∧
    (on_recv cfg st f).2.2 = none ∧
    tellsOf (on_recv cfg st f).2.1 = [("@a", "multichat: server connected")] ∧
    (on_recv cfg (on_recv cfg st f).1 f).1 = (on_recv cfg st f).1 ∧
    schedOf (on_connection_broken (on_recv cfg st f).1).2 = [RETRY_INTERVAL_MIN] := by
  cases f with
  | malformed => simp [isAckFrame] at h
  | parsed j =>
    cases hact : j.getItem "action" with
    | error e => simp [isAckFrame, hact] at h
    | ok act =>
      have hae : act = Json.str "register-ack" := by
        apply Json.isStr_true
        simpa [isAckFrame, hact] using h
      subst hae
      simp [on_recv, hact, Json.isStr, tellsOf, schedOf, on_connection_broken]

/-- C5 witness: the concrete `register-ack` frame registers the client from
the initial state, resets backoff, emits the notice once, is
duplicate-safe, and the following `onClose` schedules the minimum. -/
theorem C5_register_ack_witness :
    (on_recv sampleCfg initState ackFrame).1 =
      { initState with ws_valid := true, retry_interval := RETRY_INTERVAL_MIN } ∧
    (on_recv sampleCfg initState ackFrame).2.2 = none ∧
    tellsOf (on_recv sampleCfg initState ackFrame).2.1 =
      [("@a", "multichat: server connected")] ∧
    (on_recv sampleCfg (on_recv sampleCfg initState ackFrame).1 ackFrame).1 =
      (on_recv sampleCfg initState ackFrame).1 ∧
    schedOf (on_connection_broken (on_recv sampleCfg initState ackFrame).1).2 =
      [RETRY_INTERVAL_MIN] :=
  C5_register_ack sampleCfg initState ackFrame rfl

/-- C7: an inbound frame decoding to a `forwarding-message` with source `S`
and content `C` is broadcast to all local players exactly once as `[S]C`
when `post` is set, and not at all otherwise; the connection state is
untouched. -/
theorem C7_forwarding_broadcast (cfg : RelayConfig) (st : ClientState) (j : Json)
    (S C : String)
    (ha : j.getItem "action" = Except.ok (Json.str "forwarding-message"))
    (hs : j.getItem "source-client-name" = Except.ok (Json.str S))
    (hc : j.getItem "content" = Except.ok (Json.str C)) :
    broadcasts (on_recv cfg st (Frame.parsed j)).2.1 =
      (if cfg.do_post then ["[" ++ S ++ "]" ++ C] else []) ∧
    (on_recv cfg st (Frame.parsed j)).1 = st := by
  cases hp : cfg.do_post <;>
    simp [on_recv, ha, hs, hc, hp, post, broadcasts, pyStr, Json.isStr]

/-- C7 witness, Scenario B: the `Hub1`/`hi` forwarding frame is broadcast
as `[Hub1]hi` under `post: true`. -/
theorem C7_forwarding_broadcast_witness :
    broadcasts (on_recv sampleCfg initState (Frame.parsed fwdFrame)).2.1 =
      (if sampleCfg.do_post then ["[" ++ "Hub1" ++ "]" ++ "hi"] else []) ∧
    (on_recv sampleCfg initState (Frame.parsed fwdFrame)).1 = initState :=
  C7_forwarding_broadcast sampleCfg initState fwdFrame "Hub1" "hi" rfl rfl rfl

/-- C9 counterexample: a configuration missing a required field does not
make the component disable itself and log — `__init__` raises the
`KeyError` into the host's plugin loader (here: a config with only
`multichat-url` raises on `config['multichat-key']`). -/
theorem C9_missing_field_raises :
    multiChatWS_init (Json.obj [("multichat-url", Json.str "ws://hub")]) true =
      Except.error (PyExn.keyError "multichat-key") := rfl

/-- C9 amended: a configuration on which any required field's lookup fails
makes `__init__` raise an exception out of initialization (nothing is
caught, logged or disabled for configuration errors); only the missing
`mcBasicLib` dependency is handled locally, by logging two errors and
returning with the component disabled, without raising. -/
theorem C9_init_failure_modes (config : Json) :
    (∀ k ∈ requiredConfigKeys, ∀ (e : PyExn), config.getItem k = Except.error e →
        ∀ u : Bool, ∃ e' : PyExn, multiChatWS_init config u = Except.error e') ∧
    (∀ out : InitOutcome, multiChatWS_init config false = Except.ok out →
        ∃ effs, out = InitOutcome.disabled effs ∧
          Effect.logError "Failed to load plugin \"mcBasicLib\", multiChat will be disabled." ∈ effs ∧
          Effect.logError "Please make sure that \"mcBasicLib\" has been added to plugins." ∈ effs) := by
  constructor
  · intro k hk e hke u
    cases hurl : config.getItem "multichat-url" with
    | error e1 => exact ⟨e1, by simp [multiChatWS_init, hurl]⟩
    | ok urlv =>
      cases urlv with
      | null => exact ⟨PyExn.attributeError, by simp [multiChatWS_init, hurl]⟩
      | bool b => exact ⟨PyExn.attributeError, by simp [multiChatWS_init, hurl]⟩
      | num n => exact ⟨PyExn.attributeError, by simp [multiChatWS_init, hurl]⟩
      | arr l => exact ⟨PyExn.attributeError, by simp [multiChatWS_init, hurl]⟩
      | obj l => exact ⟨PyExn.attributeError, by simp [multiChatWS_init, hurl]⟩
      | str urls =>
        cases hkey : config.getItem "multichat-key" with
        | error e1 => exact ⟨e1, by simp [multiChatWS_init, hurl, hkey]⟩
        | ok keyv =>
          cases hlis : config.getItem "listen" with
          | error e1 => exact ⟨e1, by simp [multiChatWS_init, hurl, hkey, hlis]⟩
          | ok lisv =>
            cases hpost : config.getItem "post" with
            | error e1 => exact ⟨e1, by simp [multiChatWS_init, hurl, hkey, hlis, hpost]⟩
            | ok postv =>
              cases hign : config.getItem "ignore-prefix" with
              | error e1 =>
                exact ⟨e1, by simp [multiChatWS_init, hurl, hkey, hlis, hpost, hign]⟩
              | ok ignv =>
                exfalso
                simp only [requiredConfigKeys, List.mem_cons,
                  List.not_mem_nil, or_false] at hk
                rcases hk with rfl | rfl | rfl | rfl | rfl <;> simp_all
  · intro out hout
    unfold multiChatWS_init at hout
    cases hurl : config.getItem "multichat-url" with
    | error e => rw [hurl] at hout; cases hout
    | ok urlv =>
      rw [hurl] at hout
      cases urlv <;> try cases hout
      rename_i urls
      cases hkey : config.getItem "multichat-key" with
      | error e => rw [hkey] at hout; cases hout
      | ok keyv =>
        rw [hkey] at hout
        cases hlis : config.getItem "listen" with
        | error e => rw [hlis] at hout; cases hout
        | ok lisv =>
          rw [hlis] at hout
          cases hpost : config.getItem "post" with
          | error e => rw [hpost] at hout; cases hout
          | ok postv =>
            rw [hpost] at hout
            cases hign : config.getItem "ignore-prefix" with
            | error e => rw [hign] at hout; cases hout
            | ok ignv =>
              rw [hign] at hout
              simp only [Bool.false_eq_true, if_false, Except.ok.injEq] at hout
              refine ⟨_, hout.symm, ?_, ?_⟩ <;> simp

/-- C9 witness: a config missing only `ignore-prefix` (a late required
field) makes `__init__` raise, and with `mcBasicLib` unavailable on a
well-formed config the outcome is disabled with both error logs. -/
theorem C9_init_failure_modes_witness :
    (∃ e' : PyExn, multiChatWS_init configMissingIgnore true = Except.error e') ∧
    ∃ effs,
      InitOutcome.disabled
        [Effect.logError "Failed to load plugin \"mcBasicLib\", multiChat will be disabled.",
         Effect.logError "Please make sure that \"mcBasicLib\" has been added to plugins."] =
        InitOutcome.disabled effs ∧
      Effect.logError "Failed to load plugin \"mcBasicLib\", multiChat will be disabled." ∈ effs ∧
      Effect.logError "Please make sure that \"mcBasicLib\" has been added to plugins." ∈ effs :=
  ⟨(C9_init_failure_modes configMissingIgnore).1 "ignore-prefix" (by decide)
      (PyExn.keyError "ignore-prefix") rfl true,
   (C9_init_failure_modes goodConfig).2 _ rfl⟩

/-- `send_msg` mutates no attribute. -/
theorem send_msg_state (st : ClientState) (m : String) : (send_msg st m).1 = st := by
  unfold send_msg; split <;> rfl

/-- `on_recv` leaves the state unchanged except on the `register-ack`
branch, and never programs the retry timer. -/
theorem on_recv_state_sched (cfg : RelayConfig) (st : ClientState) (f : Frame) :
    (on_recv cfg st f).1 =
      (if isAckFrame f then
        { st with ws_valid := true, retry_interval := RETRY_INTERVAL_MIN } else st) ∧
    schedOf (on_recv cfg st f).2.1 = [] := by
  cases f with
  | malformed => exact ⟨rfl, rfl⟩
  | parsed j =>
    cases hact : j.getItem "action" with
    | error e => simp [on_recv, isAckFrame, hact, schedOf]
    | ok act =>
      rcases hs : j.getItem "source-client-name" with e | source <;>
        rcases hc2 : j.getItem "content" with e2 | content <;>
          cases h1 : act.isStr "register-ack" <;>
            cases hfw : act.isStr "forwarding-message" && cfg.do_post <;>
              simp [on_recv, isAckFrame, hact, h1, hfw, hs, hc2, schedOf, post]

/-- `on_player_input` never changes the retry interval and never programs
the retry timer. -/
theorem on_player_input_state_sched (cfg : RelayConfig) (st : ClientState)
    (p : Player) (t : String) :
    (on_player_input cfg st p t).1.retry_interval = st.retry_interval ∧
    schedOf (on_player_input cfg st p t).2 = [] := by
  simp only [on_player_input, on_retry_timer, send_msg]
  split_ifs <;> exact ⟨rfl, rfl⟩

/-- `on_player_login` mutates no attribute and never touches the timer. -/
theorem on_player_login_state_sched (cfg : RelayConfig) (st : ClientState) (p : Player) :
    (on_player_login cfg st p).1 = st ∧ schedOf (on_player_login cfg st p).2.1 = [] := by
  simp only [on_player_login, send_msg]
  split_ifs <;> exact ⟨rfl, rfl⟩

/-- `on_player_logout` mutates no attribute and never touches the timer. -/
theorem on_player_logout_state_sched (cfg : RelayConfig) (st : ClientState) (p : Player) :
    (on_player_logout cfg st p).1 = st ∧ schedOf (on_player_logout cfg st p).2.1 = [] := by
  simp only [on_player_logout, send_msg]
  split_ifs <;> exact ⟨rfl, rfl⟩

/-- Any callback keeps the retry interval at most the maximum. -/
theorem step_retry_le_max (cfg : RelayConfig) (st : ClientState) (e : Event)
    (h : st.retry_interval ≤ RETRY_INTERVAL_MAX) :
    (step cfg st e).1.retry_interval ≤ RETRY_INTERVAL_MAX := by
  cases e with
  | connected => exact h
  | recv f =>
    have h2 := (on_recv_state_sched cfg st f).1
    show (on_recv cfg st f).1.retry_interval ≤ RETRY_INTERVAL_MAX
    rw [h2]
    split
    · show RETRY_INTERVAL_MIN ≤ RETRY_INTERVAL_MAX
      decide
    · exact h
  | connectionBroken => exact min_le_left _ _
  | retryTimer => exact h
  | playerInput p t =>
    have h2 := (on_player_input_state_sched cfg st p t).1
    show (on_player_input cfg st p t).1.retry_interval ≤ RETRY_INTERVAL_MAX
    rw [h2]; exact h
  | playerLogin p =>
    have h2 := (on_player_login_state_sched cfg st p).1
    show (on_player_login cfg st p).1.retry_interval ≤ RETRY_INTERVAL_MAX
    rw [h2]; exact h
  | playerLogout p =>
    have h2 := (on_player_logout_state_sched cfg st p).1
    show (on_player_logout cfg st p).1.retry_interval ≤ RETRY_INTERVAL_MAX
    rw [h2]; exact h
  | advancement fmt =>
    have h2 := send_msg_state st (fmt cfg.lang)
    show (send_msg st (fmt cfg.lang)).1.retry_interval ≤ RETRY_INTERVAL_MAX
    rw [h2]; exact h
  | death fmt =>
    have h2 := send_msg_state st (fmt cfg.lang)
    show (send_msg st (fmt cfg.lang)).1.retry_interval ≤ RETRY_INTERVAL_MAX
    rw [h2]; exact h

/-- Any callback keeps the retry interval at least the minimum. -/
theorem step_min_le (cfg : RelayConfig) (st : ClientState) (e : Event)
    (h : RETRY_INTERVAL_MIN ≤ st.retry_interval) :
    RETRY_INTERVAL_MIN ≤ (step cfg st e).1.retry_interval := by
  cases e with
  | connected => exact h
  | recv f =>
    have h2 := (on_recv_state_sched cfg st f).1
    show RETRY_INTERVAL_MIN ≤ (on_recv cfg st f).1.retry_interval
    rw [h2]
    split
    · exact le_refl _
    · exact h
  | connectionBroken =>
    exact le_min (by decide) (le_trans h (Nat.le_mul_of_pos_right _ (by decide)))
  | retryTimer => exact h
  | playerInput p t =>
    have h2 := (on_player_input_state_sched cfg st p t).1
    show RETRY_INTERVAL_MIN ≤ (on_player_input cfg st p t).1.retry_interval
    rw [h2]; exact h
  | playerLogin p =>
    have h2 := (on_player_login_state_sched cfg st p).1
    show RETRY_INTERVAL_MIN ≤ (on_player_login cfg st p).1.retry_interval
    rw [h2]; exact h
  | playerLogout p =>
    have h2 := (on_player_logout_state_sched cfg st p).1
    show RETRY_INTERVAL_MIN ≤ (on_player_logout cfg st p).1.retry_interval
    rw [h2]; exact h
  | advancement fmt =>
    have h2 := send_msg_state st (fmt cfg.lang)
    show RETRY_INTERVAL_MIN ≤ (send_msg st (fmt cfg.lang)).1.retry_interval
    rw [h2]; exact h
  | death fmt =>
    have h2 := send_msg_state st (fmt cfg.lang)
    show RETRY_INTERVAL_MIN ≤ (send_msg st (fmt cfg.lang)).1.retry_interval
    rw [h2]; exact h

/-- Without a `register-ack` delivery, no callback decreases the retry
interval. -/
theorem step_retry_mono (cfg : RelayConfig) (st : ClientState) (e : Event)
    (hna : e.isAck = false) (hmax : st.retry_interval ≤ RETRY_INTERVAL_MAX) :
    st.retry_interval ≤ (step cfg st e).1.retry_interval := by
  cases e with
  | connected => exact le_refl _
  | recv f =>
    have hf : isAckFrame f = false := by simpa [Event.isAck] using hna
    have h2 := (on_recv_state_sched cfg st f).1
    show st.retry_interval ≤ (on_recv cfg st f).1.retry_interval
    rw [h2, hf]
    simp
  | connectionBroken =>
    exact le_min hmax (Nat.le_mul_of_pos_right _ (by decide))
  | retryTimer => exact le_refl _
  | playerInput p t =>
    have h2 := (on_player_input_state_sched cfg st p t).1
    show st.retry_interval ≤ (on_player_input cfg st p t).1.retry_interval
    rw [h2]
  | playerLogin p =>
    have h2 := (on_player_login_state_sched cfg st p).1
    show st.retry_interval ≤ (on_player_login cfg st p).1.retry_interval
    rw [h2]
  | playerLogout p =>
    have h2 := (on_player_logout_state_sched cfg st p).1
    show st.retry_interval ≤ (on_player_logout cfg st p).1.retry_interval
    rw [h2]
  | advancement fmt =>
    have h2 := send_msg_state st (fmt cfg.lang)
    show st.retry_interval ≤ (send_msg st (fmt cfg.lang)).1.retry_interval
    rw [h2]
  | death fmt =>
    have h2 := send_msg_state st (fmt cfg.lang)
    show st.retry_interval ≤ (send_msg st (fmt cfg.lang)).1.retry_interval
    rw [h2]

/-- One callback schedules the retry timer either not at all or exactly
once, with the current retry interval. -/
theorem step_sched (cfg : RelayConfig) (st : ClientState) (e : Event) :
    schedOf (step cfg st e).2 = [] ∨
    schedOf (step cfg st e).2 = [st.retry_interval] := by
  cases e with
  | connected => exact Or.inl rfl
  | recv f => exact Or.inl (on_recv_state_sched cfg st f).2
  | connectionBroken => exact Or.inr rfl
  | retryTimer => exact Or.inl rfl
  | playerInput p t => exact Or.inl (on_player_input_state_sched cfg st p t).2
  | playerLogin p => exact Or.inl (on_player_login_state_sched cfg st p).2
  | playerLogout p => exact Or.inl (on_player_logout_state_sched cfg st p).2
  | advancement fmt =>
    left
    show schedOf (Effect.logDebug "MultiChat.on_advancement called" :: (send_msg st (fmt cfg.lang)).2) = []
    unfold send_msg; split <;> rfl
  | death fmt =>
    left
    show schedOf (Effect.logDebug "MultiChat.on_death called" :: (send_msg st (fmt cfg.lang)).2) = []
    unfold send_msg; split <;> rfl

/-- `schedOf` distributes over effect concatenation. -/
theorem schedOf_append (a b : List Effect) : schedOf (a ++ b) = schedOf a ++ schedOf b :=
  List.filterMap_append a b _

/-- Along any callback sequence with no `register-ack`, starting at an
interval within the maximum, the scheduled retry intervals are
non-decreasing, bounded by the current interval below and the maximum
above, and the interval never decreases. -/
theorem run_sched_chain (cfg : RelayConfig) :
    ∀ (tr : List Event) (st : ClientState), NoAck tr →
      st.retry_interval ≤ RETRY_INTERVAL_MAX →
      List.Chain' (· ≤ ·) (schedOf (run cfg st tr).2) ∧
      (∀ x ∈ schedOf (run cfg st tr).2,
        st.retry_interval ≤ x ∧ x ≤ RETRY_INTERVAL_MAX) ∧
      st.retry_interval ≤ (run cfg st tr).1.retry_interval := by
  intro tr
  induction tr with
  | nil =>
    intro st _ _
    exact ⟨by simp [run, schedOf], by simp [run, schedOf], le_refl _⟩
  | cons e es ih =>
    intro st hna hmax
    have hnae : e.isAck = false := hna e (List.mem_cons_self _ _)
    have hnaes : NoAck es := fun x hx => hna x (List.mem_cons_of_mem _ hx)
    have hmono := step_retry_mono cfg st e hnae hmax
    have hmax1 := step_retry_le_max cfg st e hmax
    obtain ⟨ch2, mem2, fin2⟩ := ih (step cfg st e).1 hnaes hmax1
    have hrun : run cfg st (e :: es) =
        ((run cfg (step cfg st e).1 es).1,
         (step cfg st e).2 ++ (run cfg (step cfg st e).1 es).2) := rfl
    rw [hrun]
    simp only [schedOf_append]
    rcases step_sched cfg st e with hs | hs <;> rw [hs]
    · exact ⟨ch2,
        fun x hx => ⟨hmono.trans (mem2 x hx).1, (mem2 x hx).2⟩,
        hmono.trans fin2⟩
    · simp only [List.singleton_append]
      refine ⟨?_, ?_, hmono.trans fin2⟩
      · rw [List.chain'_cons']
        refine ⟨?_, ch2⟩
        intro b hb
        exact hmono.trans (mem2 b (List.mem_of_mem_head? hb)).1
      · intro x hx
        rcases List.mem_cons.mp hx with h | h
        · subst h; exact ⟨le_refl _, hmax⟩
        · exact ⟨hmono.trans (mem2 x h).1, (mem2 x h).2⟩

/-- The retry interval of every reachable state is within the bounds. -/
theorem reachable_retry_bounds {cfg : RelayConfig} {st : ClientState}
    (h : Reachable cfg st) :
    RETRY_INTERVAL_MIN ≤ st.retry_interval ∧
    st.retry_interval ≤ RETRY_INTERVAL_MAX := by
  induction h with
  | init => exact ⟨le_refl _, by decide⟩
  | next e hr ih => exact ⟨step_min_le _ _ e ih.1, step_retry_le_max _ _ e ih.2⟩

/-- C4: in every reachable state the retry interval lies within
`[5000, 3600000]`, and along every callback sequence without a
`register-ack` the scheduled retry intervals are monotonically
non-decreasing and never exceed the maximum. -/
theorem C4_backoff_invariant (cfg : RelayConfig) (st : ClientState) (tr : List Event)
    (hst : Reachable cfg st) (htr : NoAck tr) :
    (RETRY_INTERVAL_MIN ≤ st.retry_interval ∧
     st.retry_interval ≤ RETRY_INTERVAL_MAX) ∧
    List.Chain' (· ≤ ·) (schedOf (run cfg st tr).2) ∧
    ∀ x ∈ schedOf (run cfg st tr).2, x ≤ RETRY_INTERVAL_MAX := by
  have hb := reachable_retry_bounds hst
  have hc := run_sched_chain cfg tr st htr hb.2
  exact ⟨hb, hc.1, fun x hx => (hc.2.1 x hx).2⟩

/-- C4 witness: the initial state is in bounds, and Scenario C's three
connection losses schedule a non-decreasing, bounded interval sequence. -/
theorem C4_backoff_invariant_witness :
    (RETRY_INTERVAL_MIN ≤ initState.retry_interval ∧
     initState.retry_interval ≤ RETRY_INTERVAL_MAX) ∧
    List.Chain' (· ≤ ·) (schedOf (run sampleCfg initState tripleClose).2) ∧
    ∀ x ∈ schedOf (run sampleCfg initState tripleClose).2, x ≤ RETRY_INTERVAL_MAX :=
  C4_backoff_invariant sampleCfg initState tripleClose Reachable.init
    (by
      intro e he
      simp only [tripleClose, List.mem_cons, List.not_mem_nil, or_false] at he
      rcases he with rfl | rfl | rfl <;> rfl)

end MultiChat
